import Mathlib

/-!
Shallow embedding of the pptx-creator repository (src/pptx-creator.py and
src/pptx-preprocessor.py) for checking the specification's claims.

Conventions used throughout:
* Python exceptions are modelled by the `PyErr` inductive; fallible code
  returns `Except PyErr _`.
* Python dicts keyed by strings are modelled as association lists with
  unique keys (`Scope`); `dict[k] = v` replaces an existing binding in
  place or appends a new one, preserving order, as CPython dicts do.
* The variable stack keeps the innermost (most recently pushed) scope at
  the END of the list, exactly like the Python list that `push` appends to
  and `reversed(...)` walks from the top.
* Python string formatting is replayed by explicit concatenation; adjacent
  string-literal concatenation in the source (which drops no characters,
  including its missing spaces) is reproduced verbatim.
* `re.split('(?<![-:])\s*,?\s*(?![-:])', spec)` is modelled for
  whitespace-free spec strings under the pre-3.7 `re.split` semantics the
  program was written against (zero-width matches do not split), i.e. a
  split at every comma not adjacent to a range separator.
-/

/-- An ASCII apostrophe, used inside replicated CPython error messages. -/
def apos : String := String.singleton (Char.ofNat 39)

/-- Python exception values raised by the modelled code.  `keyError` and
`indexError3` carry the three-element `args` tuples the source constructs;
`indexError` is a plain one-argument `IndexError` (e.g. from list
indexing). -/
inductive PyErr where
  | valueError (msg : String)
  | keyError (a b c : String)
  | indexError3 (a b c : String)
  | indexError (msg : String)
  | typeError (msg : String)
  | attributeError (msg : String)
  | nameError (msg : String)
  | assertionError (msg : String)
  | osError (msg : String)
deriving DecidableEq, Repr

/-- One scope of the variable stack: a Python dict from variable name to
value, as an ordered association list with unique keys. -/
abbrev Scope := List (String × String)

/-- `var in d` for a Python dict. -/
def Scope.containsVar (d : Scope) (var : String) : Bool :=
  d.any (fun p => p.1 == var)

/-- `d[var]` lookup (first binding; keys are unique). -/
def Scope.getVar (d : Scope) (var : String) : Option String :=
  (d.find? (fun p => p.1 == var)).map (·.2)

/-- `d[var] = val`: replace an existing binding in place, else append. -/
def Scope.setVar (d : Scope) (var val : String) : Scope :=
  if d.containsVar var then
    d.map (fun p => if p.1 == var then (p.1, val) else p)
  else d ++ [(var, val)]

/-- The `ValueError` message of `VariableStack.find_dict` when no scope
defines the variable (identical text in both source files). -/
def varNotFoundMsg (var : String) : String :=
  "var \"" ++ var ++ "\" not found in variable stack"

/-- First dict in the given scan order that contains `var`, together with
the remaining scopes after it (used to rebuild the stack on `mod`). -/
def findDictFirst (var : String) : List Scope → Option Scope
  | [] => none
  | d :: ds => if d.containsVar var then some d else findDictFirst var ds

/-- Update, in the given scan order, the first dict containing `var`
(mirrors mutating the dict object returned by `find_dict`). -/
def modFirst (var val : String) : List Scope → Option (List Scope)
  | [] => none
  | d :: ds =>
    if d.containsVar var then some (d.setVar var val :: ds)
    else (modFirst var val ds).map (d :: ·)

/-- `VariableStack` of src/pptx-creator.py: a Python list of dicts with the
innermost scope at the end.  Its `find_dict` iterates
`reversed(self.var_stack)`, i.e. innermost first. -/
structure VariableStack where
  var_stack : List Scope
deriving DecidableEq, Repr

/-- `push`: append a fresh empty dict (a new innermost scope). -/
def VariableStack.push (vs : VariableStack) : VariableStack :=
  ⟨vs.var_stack ++ [[]]⟩

/-- `pop`: drop the innermost scope; `list.pop()` on an empty list raises
`IndexError`. -/
def VariableStack.pop (vs : VariableStack) : Except PyErr VariableStack :=
  if vs.var_stack.isEmpty then .error (.indexError "pop from empty list")
  else .ok ⟨vs.var_stack.dropLast⟩

/-- `set`: `self.var_stack[-1][var] = val`; indexing an empty list raises
`IndexError`. -/
def VariableStack.set (vs : VariableStack) (var val : String) :
    Except PyErr VariableStack :=
  match vs.var_stack.getLast? with
  | none => .error (.indexError "list index out of range")
  | some d => .ok ⟨vs.var_stack.dropLast ++ [d.setVar var val]⟩

/-- `get`: `find_dict(var)[var]` with the creator's innermost-first search
(`for var_dict in reversed(self.var_stack)`); raises `ValueError` when no
scope defines the variable.  `find_dict` only returns a dict containing
`var`, so the final dict lookup cannot miss; `getD` covers that dead
branch. -/
def VariableStack.get (vs : VariableStack) (var : String) :
    Except PyErr String :=
  match findDictFirst var vs.var_stack.reverse with
  | some d => .ok ((d.getVar var).getD "")
  | none => .error (.valueError (varNotFoundMsg var))

/-- `mod`: `find_dict(var)[var] = val`, mutating the found (innermost)
dict in place within the retained stack. -/
def VariableStack.mod (vs : VariableStack) (var val : String) :
    Except PyErr VariableStack :=
  match modFirst var val vs.var_stack.reverse with
  | some l => .ok ⟨l.reverse⟩
  | none => .error (.valueError (varNotFoundMsg var))

/-- `VariableStack` of src/pptx-preprocessor.py.  Identical state, but its
`find_dict` iterates `self.var_stack` front to back, i.e. OUTERMOST
first. -/
structure PreVarStack where
  var_stack : List Scope
deriving DecidableEq, Repr

/-- `push` of the preprocessor-file stack. -/
def PreVarStack.push (vs : PreVarStack) : PreVarStack :=
  ⟨vs.var_stack ++ [[]]⟩

/-- `pop` of the preprocessor-file stack. -/
def PreVarStack.pop (vs : PreVarStack) : Except PyErr PreVarStack :=
  if vs.var_stack.isEmpty then .error (.indexError "pop from empty list")
  else .ok ⟨vs.var_stack.dropLast⟩

/-- `set` of the preprocessor-file stack (same as the creator's). -/
def PreVarStack.set (vs : PreVarStack) (var val : String) :
    Except PyErr PreVarStack :=
  match vs.var_stack.getLast? with
  | none => .error (.indexError "list index out of range")
  | some d => .ok ⟨vs.var_stack.dropLast ++ [d.setVar var val]⟩

/-- `get` of the preprocessor-file stack: `for var_dict in self.var_stack`
scans from the OUTERMOST scope. -/
def PreVarStack.get (vs : PreVarStack) (var : String) :
    Except PyErr String :=
  match findDictFirst var vs.var_stack with
  | some d => .ok ((d.getVar var).getD "")
  | none => .error (.valueError (varNotFoundMsg var))

/-- `mod` of the preprocessor-file stack: mutates the OUTERMOST dict
containing the variable. -/
def PreVarStack.mod (vs : PreVarStack) (var val : String) :
    Except PyErr PreVarStack :=
  match modFirst var val vs.var_stack with
  | some l => .ok ⟨l⟩
  | none => .error (.valueError (varNotFoundMsg var))

example :
    VariableStack.get ⟨[[("x", "outer")], [("x", "inner")]]⟩ "x" =
      .ok "inner" := rfl

example :
    PreVarStack.get ⟨[[("x", "outer")], [("x", "inner")]]⟩ "x" =
      .ok "outer" := rfl

/-! ## The Entry/Value tree (PreprocessorEntry / PreprocessorValue)

`PPNode.entry` models a `PreprocessorEntry` (tag, `is_attrib`, the source
line number of its associated element — used only for error messages —
and the ordered `data` array).  `PPNode.value` models a
`PreprocessorValue`; its payload is `none` when the Python object's
`value` attribute was never assigned (the constructor runs
`if value: self.value = value`, so an empty string leaves it unset). -/

inductive PPNode where
  | entry (tag : String) (isAttrib : Bool) (line : Nat) (data : List PPNode)
  | value (val : Option String)
deriving Repr

/-- Python `str.strip()`: drop leading and trailing whitespace
(implemented over the character list so it evaluates by `rfl`). -/
def pyStrip (s : String) : String :=
  String.mk
    (((s.toList.dropWhile Char.isWhitespace).reverse.dropWhile
        Char.isWhitespace).reverse)

/-- Python `str.lower()` for ASCII strings. -/
def asciiLower (s : String) : String :=
  String.mk (s.toList.map
    (fun c => if 'A' ≤ c && c ≤ 'Z' then Char.ofNat (c.toNat + 32) else c))

/-- `str(pp.value)` on a `PreprocessorValue`: reading an unassigned
`value` attribute raises `AttributeError`. -/
def valStr : Option String → Except PyErr String
  | some s => .ok s
  | none => .error (.attributeError
      (apos ++ "PreprocessorValue" ++ apos ++ " object has no attribute " ++
        apos ++ "value" ++ apos))

/-- `PreprocessorValue(value=val)`: the payload is stored only when the
string is truthy (non-empty). -/
def mkValue (s : String) : PPNode :=
  .value (if s = "" then none else some s)

/-- `get_values(join=True)` with no tag: join `str(pp.value)` over the
value nodes of the data array. -/
def joinValues : List PPNode → Except PyErr String
  | [] => .ok ""
  | .value v :: rest => do
      let s ← valStr v
      let r ← joinValues rest
      .ok (s ++ r)
  | .entry _ _ _ _ :: rest => joinValues rest

/-- `get_values(tag=t, join=True)`: for each entry child with the given
tag, the join of its own values. -/
def getValuesTagJoin (tag : String) : List PPNode → Except PyErr (List String)
  | [] => .ok []
  | .entry t _ _ d :: rest =>
      if t = tag then do
        let s ← joinValues d
        let r ← getValuesTagJoin tag rest
        .ok (s :: r)
      else getValuesTagJoin tag rest
  | .value _ :: rest => getValuesTagJoin tag rest

/-- `add_text`: strip the text and append a value node unless the result
is empty (`None` text contributes nothing). -/
def addText (data : List PPNode) : Option String → List PPNode
  | none => data
  | some t =>
      if pyStrip t = "" then data else data ++ [mkValue (pyStrip t)]

/-- Does the node satisfy `child.which == "entry" and child.tag == tag`? -/
def isEntryTag (tag : String) : PPNode → Bool
  | .entry t _ _ _ => t == tag
  | .value _ => false

/-- `PreprocessorEntry.remove(tag)`: CPython `for child in self.data:
... self.data.remove(child)` mutates the list being iterated, so the
element immediately following a removed one is skipped (kept without
being examined). -/
def removeTag (tag : String) : List PPNode → List PPNode
  | [] => []
  | x :: xs =>
      if isEntryTag tag x then
        match xs with
        | [] => []
        | y :: ys => y :: removeTag tag ys
      else x :: removeTag tag xs

/-! ## Error-message text of the tree walk -/

/-- `PresentationPreprocessor.error_info(entry)`:
`"\tFile \"{src}\" in element \"{parent.tag}\", line {line}"`. -/
def errInfo (src parentTag : String) (line : Nat) : String :=
  "\tFile \"" ++ src ++ "\" in element \"" ++ parentTag ++ "\", line " ++
    toString line

/-- Undefined variable in an `append`/`prepend` directive. -/
def appendUndefMsg (var directive info : String) : String :=
  "var name \"" ++ var ++ "\" does not exist; must set var before using \"" ++
    directive ++ "\" element\n" ++ info

/-- `get`/`mod`/`set` element carrying no `var` attribute. -/
def noVarNameMsg (gms info : String) : String :=
  "cannot find name of var in \"" ++ gms ++ "\" element\n" ++ info

/-- `get`/`mod`/`set` element carrying several `var` attributes. -/
def multiVarNameMsg (n : Nat) (gms info : String) : String :=
  "name of var specified " ++ toString n ++ " times in \"" ++ gms ++
    "\" element; can only provide one var name\n" ++ info

/-- `get`/`mod`/`set` element whose `var` name is the empty string. -/
def emptyVarNameMsg (gms info : String) : String :=
  "var name cannot be empty string in " ++ gms ++ " element\n" ++ info

/-- `placeholder` with more than one `name` attribute. -/
def oneNameMsg (info : String) : String :=
  "placeholder may only have one name attribute\n" ++ info

/-- `'PreprocessorValue' object has no attribute 'tag'` (reading `.tag`
off a value node, e.g. in the presentation children check). -/
def noTagAttrMsg : String :=
  apos ++ "PreprocessorValue" ++ apos ++ " object has no attribute " ++
    apos ++ "tag" ++ apos

/-! ## The tree walk (`_process_element` and friends, pptx-creator.py) -/

/-- The `presentation` tag checks: every child must be a slide entry
(reading `.tag` off a value child raises `AttributeError`). -/
def checkSlideChildren (src : String) : List PPNode → Except PyErr Unit
  | [] => .ok ()
  | .value _ :: _ => .error (.attributeError noTagAttrMsg)
  | .entry t _ l _ :: rest =>
      if t ≠ "slide" then
        .error (.valueError
          ("presentation can only have slideelements as children\n" ++
            errInfo src "presentation" l))
      else checkSlideChildren src rest

/-- `_postprocess_element` of pptx-creator.py.  `acc` is the parent's
`data` array just before the current element was appended to it; the
result is the parent's `data` after the directive (if any) has been
resolved and the element deleted, replaced, or kept. -/
def postprocess_element (src parentTag : String) (line : Nat)
    (isAttrib : Bool) (tag : String) (entryData : List PPNode)
    (acc : List PPNode) (vs : VariableStack) :
    Except PyErr (List PPNode × VariableStack) := do
  -- pop the current scope before any directive is evaluated
  let vs ← vs.pop
  if tag = "append" ∨ tag = "prepend" then do
    let var ← joinValues entryData
    let val ← match vs.get var with
      | .ok v => pure v
      | .error (.valueError _) =>
          throw (.valueError
            (appendUndefMsg var tag (errInfo src parentTag line)))
      | .error e => throw e
    -- insert the new value into the parent and delete the directive entry
    if tag = "append" then
      .ok (acc ++ [mkValue val], vs)
    else
      .ok (mkValue val :: acc, vs)
  else if tag = "get" ∨ tag = "mod" ∨ tag = "set" then do
    let var_array ← getValuesTagJoin "var" entryData
    if var_array.length = 0 then
      throw (.valueError (noVarNameMsg tag (errInfo src parentTag line)))
    else if var_array.length > 1 then
      throw (.valueError
        (multiVarNameMsg var_array.length tag (errInfo src parentTag line)))
    else do
      let var := var_array.headD ""
      let val ← joinValues entryData
      if var = "" then
        throw (.valueError (emptyVarNameMsg tag (errInfo src parentTag line)))
      else if tag = "get" then do
        let val ← vs.get var
        .ok (acc ++ [mkValue val], vs)
      else if tag = "mod" then do
        let vs ← vs.mod var val
        .ok (acc, vs)
      else do
        let vs ← vs.set var val
        .ok (acc, vs)
  else if tag = "presentation" then do
    if entryData.length = 0 then
      throw (.valueError
        ("presentation must have at least one slideelement\n" ++
          errInfo src parentTag line))
    else if parentTag ≠ "_root_" then
      throw (.valueError
        ("presentation must be the root element\n" ++
          errInfo src parentTag line))
    else do
      let _ ← checkSlideChildren src entryData
      .ok (acc ++ [.entry tag isAttrib line entryData], vs)
  else if tag = "slide" then
    if parentTag ≠ "presentation" then
      throw (.valueError
        ("slide element must have presentationelement as a parent\n" ++
          errInfo src parentTag line))
    else .ok (acc ++ [.entry tag isAttrib line entryData], vs)
  else if tag = "placeholder" then do
    if parentTag ≠ "slide" then
      throw (.valueError
        ("placeholder element can only have slideelement as a parent\n" ++
          errInfo src parentTag line))
    else do
      let name_vals ← getValuesTagJoin "name" entryData
      if name_vals.length > 1 then
        throw (.valueError (oneNameMsg (errInfo src parentTag line)))
      else do
        let name ← match name_vals.head? with
          | some n => pure n
          | none => throw (.indexError "list index out of range")
        .ok (acc ++ [.entry name isAttrib line (removeTag "name" entryData)],
          vs)
  else
    .ok (acc ++ [.entry tag isAttrib line entryData], vs)

mutual

/-- An XML element as seen through `xml.etree.ElementTree`: tag,
attributes, leading text, tail text (the text following this element
inside its parent), the source line, and child elements.  The child list
is a dedicated mutual inductive so the tree walk below is structurally
recursive. -/
inductive XElem where
  | mk (tag : String) (attrs : List (String × String)) (text : Option String)
      (tail : Option String) (line : Nat) (children : XChildren)
deriving Repr

/-- Child elements of an `XElem`, in document order. -/
inductive XChildren where
  | nil
  | cons (c : XElem) (cs : XChildren)
deriving Repr

end

/-- Build a child list from an ordinary list. -/
def XChildren.ofList : List XElem → XChildren
  | [] => .nil
  | c :: cs => .cons c (XChildren.ofList cs)

/-- Convenience constructor taking the children as an ordinary list. -/
def xelem (tag : String) (attrs : List (String × String))
    (text tail : Option String) (line : Nat) (children : List XElem) :
    XElem :=
  .mk tag attrs text tail line (XChildren.ofList children)

/-- Tail text accessor. -/
def XElem.tailText : XElem → Option String
  | .mk _ _ _ t _ _ => t

/-- Processing of one attribute: the source wraps it in a synthetic
element (no attributes, no children, text = the attribute value) and runs
`_process_element` on it with `parent_elem` set, so its entry is flagged
`is_attrib` and reports the parent element's line. -/
def processAttrib (src parentTag : String) (line : Nat) (name value : String)
    (acc : List PPNode) (vs : VariableStack) :
    Except PyErr (List PPNode × VariableStack) :=
  let vs := vs.push
  let d := addText [] (some value)
  postprocess_element src parentTag line true name d acc vs

/-- Process all attributes of an element in order. -/
def processAttribs (src parentTag : String) (line : Nat)
    (attrs : List (String × String)) (acc : List PPNode)
    (vs : VariableStack) : Except PyErr (List PPNode × VariableStack) :=
  match attrs with
  | [] => .ok (acc, vs)
  | (n, v) :: rest => do
      let (acc, vs) ← processAttrib src parentTag line n v acc vs
      processAttribs src parentTag line rest acc vs

mutual

/-- `_process_element`: push a scope, process attributes, leading text and
children, then run `_postprocess_element` on the completed entry.  `acc`
is the parent's `data` so far; the result is the parent's updated `data`
and the variable stack after the element completes. -/
def processElement (src parentTag : String) (acc : List PPNode)
    (vs : VariableStack) : XElem → Except PyErr (List PPNode × VariableStack)
  | .mk tag attrs text _tail line children => do
      let vs := vs.push
      let (d, vs) ← processAttribs src tag line attrs [] vs
      let d := addText d text
      let (d, vs) ← processChildren src tag d vs children
      postprocess_element src parentTag line false tag d acc vs
termination_by structural e => e

/-- Process the child elements in order, appending each child's tail text
to the parent's data after the child completes. -/
def processChildren (src parentTag : String) (d : List PPNode)
    (vs : VariableStack) :
    XChildren → Except PyErr (List PPNode × VariableStack)
  | .nil => .ok (d, vs)
  | .cons c cs => do
      let (d, vs) ← processElement src parentTag d vs c
      let d := addText d c.tailText
      processChildren src parentTag d vs cs
termination_by structural l => l

end

/-- `PresentationPreprocessor.parse` up to the root-shape checks: the
walk starts with an empty variable stack and the synthetic `"_root_"`
parent entry. -/
def parseTree (src : String) (root : XElem) :
    Except PyErr (List PPNode × VariableStack) :=
  processElement src "_root_" [] ⟨[]⟩ root

/-! ## The range-spec parser (`ImportSpreadsheet._get_array`) -/

/-- A Python value that is either still the original string or already an
`int` — the `tmp` variable of the letters-conversion loop changes type on
its first iteration. -/
inductive PyDyn where
  | str (s : String)
  | int (n : Int)
deriving DecidableEq, Repr

/-- `len(tmp)`: taking the length of an `int` raises `TypeError`. -/
def pyLenDyn : PyDyn → Except PyErr Nat
  | .str s => .ok s.length
  | .int _ => .error (.typeError
      ("object of type " ++ apos ++ "int" ++ apos ++ " has no len()"))

/-- `int(s)`'s error message. -/
def intLitMsg (s : String) : String :=
  "invalid literal for int() with base 10: " ++ apos ++ s ++ apos

/-- Is the (whitespace-stripped) string a valid base-10 `int()` literal:
an optional sign followed by at least one digit? -/
def intLitValid (t : String) : Bool :=
  match t.toList with
  | [] => false
  | c :: rest =>
      if c = '-' ∨ c = '+' then rest ≠ [] && rest.all Char.isDigit
      else (c :: rest).all Char.isDigit

/-- Digit-string to number (no sign). -/
def digitsToNat (cs : List Char) : Nat :=
  cs.foldl (fun n c => 10 * n + (c.toNat - 48)) 0

/-- `int(s)`: strips surrounding whitespace, accepts an optional sign and
digits, otherwise raises `ValueError`. -/
def pyInt (s : String) : Except PyErr Int :=
  let t := pyStrip s
  if intLitValid t then
    match t.toList with
    | '-' :: rest => .ok (-(Int.ofNat (digitsToNat rest)))
    | '+' :: rest => .ok (Int.ofNat (digitsToNat rest))
    | cs => .ok (Int.ofNat (digitsToNat cs))
  else .error (.valueError (intLitMsg s))

/-- The letters-conversion loop of `_get_array`:

    num = 0
    for j,char in enumerate(tmp):
        tmp = 26**(len(tmp) - j - 1)
        tmp *= ord(char) - ord('a') + 1
        num += tmp

`tmp` starts as the lowercased token but is overwritten with an integer on
the first iteration, so `len(tmp)` on any later iteration raises
`TypeError`. -/
def lettersLoop (chars : List Char) (j : Nat) (tmp : PyDyn) (num : Int) :
    Except PyErr Int :=
  match chars with
  | [] => .ok num
  | c :: rest => do
      let l ← pyLenDyn tmp
      let t := (26 : Int) ^ (l - j - 1) *
        (Int.ofNat c.toNat - Int.ofNat ('a'.toNat) + 1)
      lettersLoop rest (j + 1) (.int t) (num + t)

/-- `re.compile('[a-z]').match(tmp)`: does the string start with a
lowercase letter? -/
def firstCharLower (s : String) : Bool :=
  match s.toList with
  | c :: _ => 'a' ≤ c && c ≤ 'z'
  | [] => false

/-- `re.compile('[0-9]').match(tmp)`: does the string start with a digit?
Anchored at the start like `firstCharLower`, which is why the
mixed-letters-and-digits check below can never fire. -/
def firstCharDigit (s : String) : Bool :=
  match s.toList with
  | c :: _ => '0' ≤ c && c ≤ '9'
  | [] => false

/-- The per-value conversion step of `_get_array`: letters branch (with
the dead mixed-digits check), `int()` branch, and the `< 1` bound check
with its exact message (the source concatenates two adjacent string
literals without a space: `"...less than 1 in" "row/column spec..."`). -/
def convertVal (spec range_val : String) : Except PyErr Int := do
  let tmp := asciiLower range_val
  let v ← (
    if firstCharLower tmp then
      if firstCharDigit tmp then
        throw (.valueError ("cannot mix digits and letters \"" ++ range_val ++
          "\" in row/column spec \"" ++ spec ++ "\""))
      else lettersLoop tmp.toList 0 (.str tmp) 0
    else pyInt range_val)
  if v < 1 then
    throw (.valueError ("index \"" ++ range_val ++
      "\" cannot be less than 1 inrow/column spec \"" ++ spec ++ "\""))
  else .ok v

/-- Split the spec at every comma that is not adjacent to a range
separator (`-`/`:`) — the effect of
`re.split('(?<![-:])\s*,?\s*(?![-:])', spec)` on whitespace-free specs
under pre-3.7 semantics (zero-width matches do not split). -/
def splitCommasGo (prev : Option Char) (cur : List Char) :
    List Char → List String
  | [] => [String.mk cur.reverse]
  | c :: rest =>
      if c = ',' &&
          (match prev with
           | some p => !(p = '-' || p = ':')
           | none => true) &&
          (match rest.head? with
           | some n => !(n = '-' || n = ':')
           | none => true) then
        String.mk cur.reverse :: splitCommasGo (some c) [] rest
      else splitCommasGo (some c) (c :: cur) rest

/-- Comma-split of the whole spec string. -/
def splitCommas (s : String) : List String :=
  splitCommasGo none [] s.toList

/-- `re.compile('\s*[-:]\s*').split(list_val)`: split at every `-` or
`:`. -/
def splitSepsGo (cur : List Char) : List Char → List String
  | [] => [String.mk cur.reverse]
  | c :: rest =>
      if c = '-' || c = ':' then
        String.mk cur.reverse :: splitSepsGo [] rest
      else splitSepsGo (c :: cur) rest

/-- Separator-split of one comma token. -/
def splitSeps (s : String) : List String :=
  splitSepsGo [] s.toList

/-- `range(a, b, inc)` for `inc ≥ 1`, ascending.  The fuel is an upper
bound on the number of steps. -/
def rangeUp (fuel : Nat) (a b inc : Int) : List Int :=
  match fuel with
  | 0 => []
  | f + 1 => if a < b then a :: rangeUp f (a + inc) b inc else []

/-- `range(a, b, -inc)` for `inc ≥ 1`, descending. -/
def rangeDown (fuel : Nat) (a b inc : Int) : List Int :=
  match fuel with
  | 0 => []
  | f + 1 => if a > b then a :: rangeDown f (a - inc) b inc else []

/-- Expand one converted token into indices: a bare value, a 2-part
inclusive range with inferred direction, or a 3-part range whose step is
the absolute value of the third part (`range(..., 0)` raises
`ValueError`). -/
def expandToken (spec list_val : String) (vals : List Int) :
    Except PyErr (List Int) :=
  match vals with
  | [v] => .ok [v]
  | [v0, v1] =>
      if v0 ≤ v1 then .ok (rangeUp (v1 + 1 - v0).toNat v0 (v1 + 1) 1)
      else .ok (rangeDown (v0 + 1 - v1).toNat v0 (v1 - 1) 1)
  | [v0, v1, v2] =>
      let inc := |v2|
      if inc = 0 then .error (.valueError "range() arg 3 must not be zero")
      else if v0 ≤ v1 then .ok (rangeUp (v1 + 1 - v0).toNat v0 (v1 + 1) inc)
      else .ok (rangeDown (v0 + 1 - v1).toNat v0 (v1 - 1) inc)
  | _ => .error (.valueError ("invalid number of range arguments \"" ++
      list_val ++ "\" in row/column spec \"" ++ spec ++ "\""))

/-- `ImportSpreadsheet._get_array`: compile a row/column spec string into
the ordered list of selected 1-based indices. -/
def get_array (spec : String) : Except PyErr (List Int) := do
  let toks := splitCommas spec
  toks.foldlM (fun array list_val => do
    let range_vals := splitSeps list_val
    let vals ← range_vals.mapM (convertVal spec)
    let exp ← expandToken spec list_val vals
    .ok (array ++ exp)) []

/-! ## The tabular importer (`ImportSpreadsheet` and
`PresentationCreator._import`) -/

/-- A row key filter as stored by `add_row_key`: the literal pattern and
the optional column restriction (already compiled by `_get_array`).  A
truthy `re` argument never reaches storage — `re.compile` is shadowed by
the parameter and raises `AttributeError`. -/
structure RowKey where
  key : String
  col : Option (List Int)
deriving Repr

/-- A column key filter as stored by `add_col_key`. -/
structure ColKey where
  key : String
  row : Option (List Int)
deriving Repr

/-- The mutable state of an `ImportSpreadsheet` object.  `num_row` and
`num_col` are `none` until `get_data` first assigns them. -/
structure ImporterState where
  data : Option (List (List PPNode))
  rows : List Int
  cols : List Int
  row_keys : List RowKey
  col_keys : List ColKey
  num_row : Option Nat
  num_col : Option Nat
deriving Repr

/-- A freshly constructed importer. -/
def initImporter : ImporterState := ⟨none, [], [], [], [], none, none⟩

/-- Python list indexing: negative indices count from the end; anything
out of range raises a plain `IndexError`. -/
def pyIndex (l : List α) (i : Int) : Except PyErr α :=
  let j := if i < 0 then i + l.length else i
  if h : 0 ≤ j ∧ j.toNat < l.length then .ok (l.get ⟨j.toNat, h.2⟩)
  else .error (.indexError "list index out of range")

/-- Is `p` a prefix of `h`? -/
def pfxChars : List Char → List Char → Bool
  | [], _ => true
  | _ :: _, [] => false
  | a :: as, b :: bs => a == b && pfxChars as bs

/-- `hay.find(pat) > -1`: literal substring search (the empty pattern
always matches). -/
def strFind (hay pat : String) : Bool :=
  hay.toList.tails.any (fun t => pfxChars pat.toList t)

/-- `[1, 2, ..., n]` as `Int`s (`list(range(1, n+1))`). -/
def intRange1 (n : Nat) : List Int :=
  (List.range n).map (fun i => Int.ofNat i + 1)

/-- `self.data[r-1][c-1].get_values(join=True)` on a scanned cell;
calling `get_values` on a value node would raise `AttributeError`. -/
def cellText : PPNode → Except PyErr String
  | .entry _ _ _ d => joinValues d
  | .value _ => .error (.attributeError
      (apos ++ "PreprocessorValue" ++ apos ++ " object has no attribute " ++
        apos ++ "get_values" ++ apos))

/-- Read and join one scanned cell. -/
def scanVal (data : List (List PPNode)) (r c : Int) : Except PyErr String := do
  let row ← pyIndex data (r - 1)
  let cell ← pyIndex row (c - 1)
  cellText cell

/-- Scan the given columns of row `r` for the key; keep the row as soon
as one cell matches (short-circuit). -/
def rowMatchScan (data : List (List PPNode)) (key : String) (r : Int) :
    List Int → Except PyErr Bool
  | [] => .ok false
  | c :: cs => do
      let v ← scanVal data r c
      if strFind v key then .ok true else rowMatchScan data key r cs

/-- One row-key pass: the surviving rows, in order (`valid_rows` built by
`remove`-ing non-matching rows from a copy). -/
def matchedRows (data : List (List PPNode)) (key : String)
    (rkCols : List Int) : List Int → Except PyErr (List Int)
  | [] => .ok []
  | r :: rs => do
      let m ← rowMatchScan data key r rkCols
      let rest ← matchedRows data key rkCols rs
      .ok (if m then r :: rest else rest)

/-- Scan the given rows of column `c` for the key (short-circuit). -/
def colMatchScan (data : List (List PPNode)) (key : String) (c : Int) :
    List Int → Except PyErr Bool
  | [] => .ok false
  | r :: rs => do
      let v ← scanVal data r c
      if strFind v key then .ok true else colMatchScan data key c rs

/-- One column-key pass. -/
def matchedCols (data : List (List PPNode)) (key : String)
    (ckRows : List Int) : List Int → Except PyErr (List Int)
  | [] => .ok []
  | c :: cs => do
      let m ← colMatchScan data key c ckRows
      let rest ← matchedCols data key ckRows cs
      .ok (if m then c :: rest else rest)

/-- The row-key filter loop of `get_data`.  On an error the first
component is `self.rows` as already narrowed by the completed passes
(the assignment `self.rows = valid_rows` precedes the no-match raise). -/
def rowKeysLoop (data : List (List PPNode)) :
    List Int → List RowKey → List Int × Except PyErr Unit
  | rows, [] => (rows, .ok ())
  | rows, rk :: rest =>
      let rkCols := rk.col.getD (intRange1 (data.headD []).length)
      match matchedRows data rk.key rkCols rows with
      | .error e => (rows, .error e)
      | .ok valid =>
          if valid.isEmpty then
            (valid, .error (.keyError "no match found" "row key" rk.key))
          else rowKeysLoop data valid rest

/-- The column-key filter loop.  Its no-match raise evaluates
`str(rk.key)` — `rk` is the stale row-key loop variable — so it raises
`NameError` when there were no row keys and `AttributeError` (dicts have
no `key` attribute) otherwise, never the intended `KeyError`. -/
def colKeysLoop (data : List (List PPNode)) (hasRowKeys : Bool) :
    List Int → List ColKey → List Int × Except PyErr Unit
  | cols, [] => (cols, .ok ())
  | cols, ck :: rest =>
      let ckRows := ck.row.getD (intRange1 data.length)
      match matchedCols data ck.key ckRows cols with
      | .error e => (cols, .error e)
      | .ok valid =>
          if valid.isEmpty then
            (valid, .error (if hasRowKeys then
                .attributeError (apos ++ "dict" ++ apos ++
                  " object has no attribute " ++ apos ++ "key" ++ apos)
              else
                .nameError ("name " ++ apos ++ "rk" ++ apos ++
                  " is not defined")))
          else colKeysLoop data hasRowKeys valid rest

/-- Column extraction for one selected row, with the explicit
out-of-range check of the assembly phase. -/
def assembleCols (rowData : List PPNode) :
    List Int → Except PyErr (List PPNode)
  | [] => .ok []
  | c :: cs => do
      if (c : Int) > rowData.length then
        throw (.indexError3 "index out of range" "column" (toString c))
      else do
        let cell ← pyIndex rowData (c - 1)
        let rest ← assembleCols rowData cs
        .ok (cell :: rest)

/-- The final assembly phase of `get_data`: one output row per selected
row index, in order, with explicit out-of-range checks. -/
def assembleRows (data : List (List PPNode)) (cols : List Int) :
    List Int → Except PyErr (List (List PPNode))
  | [] => .ok []
  | r :: rs => do
      if (r : Int) > data.length then
        throw (.indexError3 "index out of range" "row" (toString r))
      else do
        let rowData ← pyIndex data (r - 1)
        let cells ← assembleCols rowData cols
        let rest ← assembleRows data cols rs
        .ok (cells :: rest)

/-- `ImportSpreadsheet.get_data`: defaults, pre-filter `num_row`/
`num_col`, the two filter loops, the post-filter count updates, and the
assembly.  Returns the importer state as mutated up to the point of a
raise together with the result. -/
def get_data (st : ImporterState) :
    ImporterState × Except PyErr (List (List PPNode)) :=
  match st.data with
  | none => (st, .error (.assertionError
      "data must be set before calling get_data()"))
  | some data =>
    let rows := if st.rows.isEmpty then intRange1 data.length else st.rows
    let cols := if st.cols.isEmpty then
        (if data.length > 0 then intRange1 (data.headD []).length else [])
      else st.cols
    let num_row := if st.row_keys.isEmpty then 1 else max 1 rows.length
    let num_col := if st.col_keys.isEmpty then 1 else max 1 cols.length
    let st := { st with
      rows := rows, cols := cols
      num_row := some num_row, num_col := some num_col }
    if data.length < 1 ∨ (data.headD []).length < 1 then
      (st, .error (.valueError "no data found"))
    else
      match rowKeysLoop data rows st.row_keys with
      | (rows, .error e) => ({ st with rows := rows }, .error e)
      | (rows, .ok ()) =>
        let st := { st with
          rows := rows
          num_row := some (max 1 rows.length) }
        match colKeysLoop data (!st.row_keys.isEmpty) cols st.col_keys with
        | (cols, .error e) => ({ st with cols := cols }, .error e)
        | (cols, .ok ()) =>
          let st := { st with
            cols := cols
            num_col := some (max 1 cols.length) }
          (st, assembleRows data cols rows)

/-- A spreadsheet cell as read by `ImportCSV.read`/`ImportXLSX.read`:
`PreprocessorEntry(self.entry.tag, parent=self.entry,
elem=self.entry.elem, value=val)`. -/
def mkCell (tag : String) (line : Nat) (s : String) : PPNode :=
  .entry tag false line [mkValue s]

/-- `read`: load the raw grid into cell entries and run `get_data`.  (The
appending of every cell entry to the import entry's own `data` array is
accounted for in `import_` below.) -/
def readGrid (grid : List (List String)) (etag : String) (eline : Nat)
    (st : ImporterState) :
    ImporterState × Except PyErr (List (List PPNode)) :=
  get_data { st with data := some (grid.map (fun r => r.map (mkCell etag eline))) }

/-- Truthiness of the `re` argument: `False` when the attribute is absent,
else the attribute's (possibly empty) string value. -/
def truthyOptStr : Option String → Bool
  | none => false
  | some s => s ≠ ""

/-- `add_row_key`: a truthy `re` hits `re.compile` on the shadowing string
parameter (`AttributeError`); otherwise store the literal key and the
compiled column restriction. -/
def add_row_key (st : ImporterState) (key : String) (col : Option String)
    (re : Option String) : Except PyErr ImporterState := do
  if truthyOptStr re then
    throw (.attributeError (apos ++ "str" ++ apos ++
      " object has no attribute " ++ apos ++ "compile" ++ apos))
  else do
    let colArr ← match col with
      | none => pure none
      | some c => do
          let a ← get_array c
          pure (some a)
    .ok { st with row_keys := st.row_keys ++ [⟨key, colArr⟩] }

/-- The running accumulator of `_import`'s child-attribute loop:
the raw `num_row`/`num_col` strings, whether a `row_key` child has bound
the local variable `col`, and the importer state. -/
structure ImportScan where
  num_rowX : Option String
  num_colX : Option String
  sawRowKey : Bool
  st : ImporterState

/-- The attribute sub-loop of a `row_key` child: `col`/`re` attributes,
anything else is an invalid row_key import attribute. -/
def rowKeyAttrs (src : String) (col re : Option String) :
    List PPNode → Except PyErr (Option String × Option String)
  | [] => .ok (col, re)
  | .value _ :: rest => rowKeyAttrs src col re rest
  | .entry t _ l d :: rest =>
      if t = "col" then do
        let s ← joinValues d
        rowKeyAttrs src (some s) re rest
      else if t = "re" then do
        let s ← joinValues d
        rowKeyAttrs src col (some s) rest
      else throw (.valueError ("invalid row_key import attribute \"" ++ t ++
        "\"\n" ++ errInfo src "row_key" l))

/-- The attribute sub-loop of a `col_key` child: `row`/`re` attributes. -/
def colKeyAttrs (src : String) (row re : Option String) :
    List PPNode → Except PyErr (Option String × Option String)
  | [] => .ok (row, re)
  | .value _ :: rest => colKeyAttrs src row re rest
  | .entry t _ l d :: rest =>
      if t = "row" then do
        let s ← joinValues d
        colKeyAttrs src (some s) re rest
      else if t = "re" then do
        let s ← joinValues d
        colKeyAttrs src row (some s) rest
      else throw (.valueError ("invalid col_key import attribute \"" ++ t ++
        "\"\n" ++ errInfo src "col_key" l))

/-- One child of the import element, as dispatched by `_import`.  The
`col_key` branch always fails at the call
`add_col_key(..., col=col, re=re)`: `add_col_key` has no `col` keyword, so
the call raises `TypeError` — unless the local name `col` (only ever bound
by an earlier `row_key` branch) is still unbound, in which case evaluating
the keyword argument raises `NameError` first. -/
def importChild (src etag filetype : String) (acc : ImportScan)
    (child : PPNode) : Except PyErr ImportScan :=
  match child with
  | .value _ => .ok acc
  | .entry t _ l d =>
      if t = "num_row" then do
        let s ← joinValues d
        .ok { acc with num_rowX := some s }
      else if t = "num_col" then do
        let s ← joinValues d
        .ok { acc with num_colX := some s }
      else if t = "row" then do
        let s ← joinValues d
        let a ← get_array s
        .ok { acc with st := { acc.st with rows := acc.st.rows ++ a } }
      else if t = "col" then do
        let s ← joinValues d
        let a ← get_array s
        .ok { acc with st := { acc.st with cols := acc.st.cols ++ a } }
      else if t = "row_key" then do
        let (col, re) ← rowKeyAttrs src none none d
        let key ← joinValues d
        let st ← add_row_key acc.st key col re
        .ok { acc with st := st, sawRowKey := true }
      else if t = "col_key" then do
        let (_, _) ← colKeyAttrs src none none d
        let _ ← joinValues d
        if acc.sawRowKey then
          throw (.typeError ("add_col_key() got an unexpected keyword argument "
            ++ apos ++ "col" ++ apos))
        else
          throw (.nameError ("name " ++ apos ++ "col" ++ apos ++
            " is not defined"))
      else if t = "sheet" then
        if filetype = "csv" then
          throw (.attributeError (apos ++ "ImportCSV" ++ apos ++
            " object has no attribute " ++ apos ++ "add_sheet" ++ apos))
        else .ok acc
      else throw (.valueError ("invalid import attribute \"" ++ t ++ "\"\n" ++
        errInfo src etag l))

/-- `pathlib.Path(...).suffix`: the final dotted extension, or `""`. -/
def pathSuffix (s : String) : String :=
  let cs := s.toList
  if cs.contains (Char.ofNat 46) then
    "." ++ String.mk (cs.reverse.takeWhile (· ≠ Char.ofNat 46)).reverse
  else ""

/-- Record a soft import diagnostic under its source file (the
`invalid_imports` dict of `create_presentation`, printed at the end of the
run). -/
def addInvalid (inv : List (String × List String)) (path msg : String) :
    List (String × List String) :=
  if inv.any (·.1 == path) then
    inv.map (fun p => if p.1 == path then (p.1, p.2 ++ [msg]) else p)
  else inv ++ [(path, [msg])]

/-- `range(0, n)` where `n` may still be the raw string from the XML:
`range` rejects strings with `TypeError`. -/
def pyRange0 : PyDyn → Except PyErr (List Nat)
  | .int n => .ok (List.range n.toNat)
  | .str _ => .error (.typeError (apos ++ "str" ++ apos ++
      " object cannot be interpreted as an integer"))

/-- `PresentationCreator._import` for spreadsheet files.  `fs` abstracts
the file system (filename to raw cell grid).  Returns the normalized
grid, the import entry as mutated by the run (`read` appends one entry
per spreadsheet cell to it and the sentinel `tmp` entry is appended too),
and the updated `invalid_imports` association list.

The `try`/`except` around `read` turns structured `KeyError`/
`IndexError`/`ValueError` raises into soft per-file messages and
continues; a plain one-argument `IndexError` is caught but the message
formatting then evaluates `err.args[1]`, raising
`IndexError("tuple index out of range")` outside the `try`; anything else
propagates.  The row/column size-mismatch messages are computed but never
recorded (the recording code is commented out in the source). -/
def import_ (src parentTag : String)
    (fs : String → Option (List (List String))) (entry : PPNode)
    (invalid : List (String × List String)) :
    Except PyErr
      (List (List PPNode) × PPNode × List (String × List String)) :=
  match entry with
  | .value _ => .error (.attributeError
      (apos ++ "PreprocessorValue" ++ apos ++ " object has no attribute " ++
        apos ++ "get_values" ++ apos))
  | .entry etag eattr eline edata => do
    let path ← joinValues edata
    let filetype ←
      if pathSuffix path = ".xlsx" then pure "xlsx"
      else if pathSuffix path = ".csv" then pure "csv"
      else throw (.valueError ("invalid import suffix \"" ++ pathSuffix path ++
        "\"\n" ++ errInfo src parentTag eline))
    let scan ← edata.foldlM (importChild src etag filetype)
      ⟨none, none, false, initImporter⟩
    match fs path with
    | none => throw (.osError ("No such file or directory: " ++ apos ++
        path ++ apos))
    | some grid =>
      -- read() appends one cell entry per spreadsheet cell to entry.data
      let edata := edata ++
        (grid.map (fun r => r.map (mkCell etag eline))).flatten
      let (st, res) := readGrid grid etag eline scan.st
      let caught : Option String ← match res with
        | .ok _ => pure none
        | .error (.keyError a b c) =>
            pure (some (b ++ " \"" ++ c ++ "\": " ++ a))
        | .error (.indexError3 a b c) =>
            pure (some (b ++ " \"" ++ c ++ "\": " ++ a))
        | .error (.valueError m) => pure (some m)
        | .error (.indexError _) =>
            throw (.indexError "tuple index out of range")
        | .error e => throw e
      let entries := match res with
        | .ok es => es
        | .error _ => [[]]
      let invalid := match caught with
        | some msg => addInvalid invalid path msg
        | none => invalid
      let nrowD : PyDyn := match scan.num_rowX with
        | some s => .str s
        | none => .int (Int.ofNat (st.num_row.getD 1))
      let ncolD : PyDyn := match scan.num_colX with
        | some s => .str s
        | none => .int (Int.ofNat (st.num_col.getD 1))
      let tmp := mkCell etag eline "N/A"
      let edata := edata ++ [tmp]
      let iIdx ← pyRange0 nrowD
      let jIdx ← pyRange0 ncolD
      let valid_entries := iIdx.map (fun i =>
        jIdx.map (fun j =>
          ((entries.get? i).bind (fun r => r.get? j)).getD tmp))
      -- the size-mismatch diagnostics are computed and dropped; the
      -- column check reads valid_entries[0]
      if valid_entries.isEmpty then
        throw (.indexError "list index out of range")
      else
        .ok (valid_entries, .entry etag eattr eline edata, invalid)

/-! ## The table assembler (`PresentationCreator._ph_table`) -/

/-- `_prs_insert_text`: concatenate the value children of a cell entry;
a `date` child inserts the formatted current date (abstracted here as the
`today` parameter); any other entry child is invalid. -/
def prs_insert_text (src today : String) : PPNode → Except PyErr String
  | .value _ => .error (.attributeError
      (apos ++ "PreprocessorValue" ++ apos ++ " object has no attribute " ++
        apos ++ "data" ++ apos))
  | .entry ctag _ _ d =>
      let rec go : List PPNode → Except PyErr String
        | [] => .ok ""
        | .value v :: rest => do
            let s ← valStr v
            let r ← go rest
            .ok (s ++ r)
        | .entry t _ l _ :: rest =>
            if t = "date" then do
              let r ← go rest
              .ok (today ++ r)
            else
              .error (.valueError ("invalid \"" ++ t ++
                "\" entry in text placeholder.\n" ++ errInfo src ctag l))
      go d

/-- `list.insert(i, a)`: insert before position `i`, clamped to the list
length. -/
def pyInsert (l : List α) (i : Nat) (a : α) : List α :=
  l.take i ++ a :: l.drop i

/-- The first-fit placement loop for a literal cell: from index `k`
onward, append when past the end of the row, fill the first empty
(`None`) slot, otherwise keep advancing.  The fuel (`row.length + 1` at
the initial call) strictly bounds the number of iterations, so the
`fuel = 0` case is unreachable. -/
def placeCellGo (cell : PPNode) (row : List (Option PPNode)) (k : Nat) :
    Nat → List (Option PPNode) × Nat
  | 0 => (row, k)
  | fuel + 1 =>
      match row.get? k with
      | none => (row ++ [some cell], k)
      | some none => (row.set k (some cell), k)
      | some (some _) => placeCellGo cell row (k + 1) fuel

/-- Insert the cells of one imported row at positions `c, c+1, ...`
(`table[cur_row + i].insert(cur_col + j, icol)`), shifting existing
content right. -/
def insertCells (row : List (Option PPNode)) (c : Nat) :
    List PPNode → List (Option PPNode)
  | [] => row
  | icol :: rest => insertCells (pyInsert row c (some icol)) (c + 1) rest

/-- Splice an imported grid into the table at a cell position: for the
`i`-th imported row, append a fresh table row when needed, pad a short
row with `None` up to `cur_col`, then insert the imported cells. -/
def insertImportRows (cur_row cur_col : Nat) :
    List (List (Option PPNode)) → Nat → List (List PPNode) →
      List (List (Option PPNode))
  | table, _, [] => table
  | table, i, irow :: rest =>
      let table := if table.length ≤ cur_row + i then table ++ [[]] else table
      let row := table.getD (cur_row + i) []
      let row := if row.length < cur_col then
          row ++ List.replicate (cur_col - row.length) none
        else row
      let row := insertCells row cur_col irow
      insertImportRows cur_row cur_col (table.set (cur_row + i) row) (i + 1)
        rest

/-- Append the rows of a row-level import: each imported row bumps
`cur_row`, creates the table row if absent, and appends its cells. -/
def appendImportRows :
    List (List (Option PPNode)) → Int → List (List PPNode) →
      List (List (Option PPNode)) × Int
  | table, cur_row, [] => (table, cur_row)
  | table, cur_row, irow :: rest =>
      let cur_row := cur_row + 1
      let table := if table.length ≤ cur_row.toNat then table ++ [[]]
        else table
      let row := table.getD cur_row.toNat []
      let table := table.set cur_row.toNat (row ++ irow.map some)
      appendImportRows table cur_row rest

/-- The cell loop of a literal `row` element.  The accumulator carries
the sparse table, the column cursor (starting at `-1`), the rebuilt
`data` array of the row entry (imports are mutated by `_import`), and the
`invalid_imports` diagnostics. -/
def processRowCells (src : String)
    (fs : String → Option (List (List String))) (cur_row : Nat) :
    List PPNode →
      List (List (Option PPNode)) × Int × List PPNode ×
        List (String × List String) →
      Except PyErr
        (List (List (Option PPNode)) × Int × List PPNode ×
          List (String × List String))
  | [], acc => .ok acc
  | .value _ :: _, _ =>
      -- the raise formats `row.value`, but `row` is the entry: AttributeError
      .error (.attributeError (apos ++ "PreprocessorEntry" ++ apos ++
        " object has no attribute " ++ apos ++ "value" ++ apos))
  | (c@(.entry t _ l _d)) :: rest, (table, cur_col, newData, invalid) =>
      if t = "cell" then
        let row := table.getD cur_row []
        let k0 := (cur_col + 1).toNat
        let (row, k) := placeCellGo c row k0 (row.length + 1)
        processRowCells src fs cur_row rest
          (table.set cur_row row, Int.ofNat k, newData ++ [c], invalid)
      else if t = "import" then do
        let cur_col := cur_col + 1
        let (irows, mImp, invalid) ← import_ src "row" fs c invalid
        let table := insertImportRows cur_row cur_col.toNat table 0 irows
        processRowCells src fs cur_row rest
          (table, cur_col, newData ++ [mImp], invalid)
      else
        .error (.valueError ("invalid element \"" ++ t ++
          "\" in table row, expected cell element.\n" ++ errInfo src "row" l))

/-- The row loop of `_ph_table`.  The accumulator carries the sparse
table, `max_col`, the row cursor (starting at `-1`), the rebuilt `data`
array of the placeholder entry, and the diagnostics. -/
def phTableRows (src etag : String)
    (fs : String → Option (List (List String))) :
    List PPNode →
      List (List (Option PPNode)) × Nat × Int × List PPNode ×
        List (String × List String) →
      Except PyErr
        (List (List (Option PPNode)) × Nat × Int × List PPNode ×
          List (String × List String))
  | [], acc => .ok acc
  | .value v :: _, _ => do
      -- the raise formats `row.value` (fine when assigned) and then calls
      -- `error_info` on a PreprocessorValue, which has no such method
      let _ ← valStr v
      .error (.attributeError (apos ++ "PreprocessorValue" ++ apos ++
        " object has no attribute " ++ apos ++ "error_info" ++ apos))
  | (r@(.entry t ia l rdata)) :: rest,
      (table, max_col, cur_row, newData, invalid) =>
      if t = "row" then do
        let cur_row := cur_row + 1
        let table := if table.length ≤ cur_row.toNat then table ++ [[]]
          else table
        let (table, _, newRData, invalid) ←
          processRowCells src fs cur_row.toNat rdata (table, -1, [], invalid)
        let max_col := if (table.getD cur_row.toNat []).length > max_col + 1
          then (table.getD cur_row.toNat []).length - 1 else max_col
        phTableRows src etag fs rest
          (table, max_col, cur_row,
            newData ++ [.entry t ia l newRData], invalid)
      else if t = "import" then do
        let (irows, mImp, invalid) ← import_ src etag fs r invalid
        let (table, cur_row) := appendImportRows table cur_row irows
        phTableRows src etag fs rest
          (table, max_col, cur_row, newData ++ [mImp], invalid)
      else
        .error (.valueError ("invalid element \"" ++ t ++
          "\" in table, expected row element.\n" ++ errInfo src etag l))

/-- One materialized table row: walk the first `nCols` slots; past the
end of the sparse row the loop `break`s (remaining cells stay empty), a
`None` slot is skipped, and a filled slot renders its text. -/
def matRow (src today : String) :
    Nat → List (Option PPNode) → Except PyErr (List (Option String))
  | 0, _ => .ok []
  | n + 1, [] => .ok (List.replicate (n + 1) none)
  | n + 1, none :: rest => do
      let r ← matRow src today n rest
      .ok (none :: r)
  | n + 1, some cell :: rest => do
      let t ← prs_insert_text src today cell
      let r ← matRow src today n rest
      .ok (some t :: r)

/-- The result of `_ph_table`: the sparse grid, the dimensions of the
created table shape (`len(table)` by `max_col + 1`), and the rendered
cell texts. -/
structure PhTableResult where
  sparse : List (List (Option PPNode))
  nRows : Nat
  nCols : Nat
  texts : List (List (Option String))
deriving Repr

/-- `PresentationCreator._ph_table`: assemble the sparse grid from
literal `row`/`cell` markup and `import` blocks, then materialize the
rectangular table.  Returns the result, the placeholder entry as mutated
by the run (its import entries gain the cell and sentinel children
appended by `_import`), and the updated diagnostics. -/
def ph_table (src today : String)
    (fs : String → Option (List (List String))) (entry : PPNode)
    (invalid : List (String × List String)) :
    Except PyErr (PhTableResult × PPNode × List (String × List String)) :=
  match entry with
  | .value _ => .error (.attributeError
      (apos ++ "PreprocessorValue" ++ apos ++ " object has no attribute " ++
        apos ++ "data" ++ apos))
  | .entry etag ea el edata => do
      let (table, max_col, _, newData, invalid) ←
        phTableRows src etag fs edata ([], 0, -1, [], invalid)
      let texts ← table.mapM (matRow src today (max_col + 1))
      .ok (⟨table, table.length, max_col + 1, texts⟩,
        .entry etag ea el newData, invalid)

/-! ## Claim C1: `get`/`mod` lookup order -/

/-- C1: over the creator's `VariableStack`, `get` and `mod` resolve a name
bound in more than one scope to the innermost binding (the stack
`[{x: outer}, {x: inner}]` has `inner` pushed last) and fail with the
undefined-variable `ValueError` when no scope binds the name — but the
`VariableStack.find_dict` of src/pptx-preprocessor.py scans the stack
outermost-first, so there `get` returns the OUTERMOST binding and `mod`
overwrites the outermost dict, contradicting the claim for that file. -/
theorem C1_find_dict_order :
    VariableStack.get ⟨[[("x", "outer")], [("x", "inner")]]⟩ "x" =
        .ok "inner" ∧
    VariableStack.mod ⟨[[("x", "outer")], [("x", "inner")]]⟩ "x" "w" =
        .ok ⟨[[("x", "outer")], [("x", "w")]]⟩ ∧
    VariableStack.get ⟨[[("y", "1")], []]⟩ "x" =
        .error (.valueError (varNotFoundMsg "x")) ∧
    VariableStack.mod ⟨[[("y", "1")], []]⟩ "x" "w" =
        .error (.valueError (varNotFoundMsg "x")) ∧
    PreVarStack.get ⟨[[("x", "outer")], [("x", "inner")]]⟩ "x" =
        .ok "outer" ∧
    PreVarStack.mod ⟨[[("x", "outer")], [("x", "inner")]]⟩ "x" "w" =
        .ok ⟨[[("x", "w")], [("x", "inner")]]⟩ ∧
    PreVarStack.get ⟨[[("y", "1")], []]⟩ "x" =
        .error (.valueError (varNotFoundMsg "x")) :=
  ⟨rfl, rfl, rfl, rfl, rfl, rfl, rfl⟩

/-! ## Claims C2 and C4: error handling of the import pipeline -/

/-- Spreadsheet contents used by the C2 import scenarios. -/
def c2fs : String → Option (List (List String)) :=
  fun p => if p = "d.csv" then some [["a", "b"], ["c", "d"]] else none

/-- Import element with a row key that matches nothing in `d.csv`. -/
def c2importNoMatch : PPNode :=
  .entry "import" false 9
    [PPNode.value (some "d.csv"),
     .entry "row_key" false 10 [PPNode.value (some "Q3")]]

/-- Import element selecting row 5 of the 2-row `d.csv`. -/
def c2importOOB : PPNode :=
  .entry "import" false 9
    [PPNode.value (some "d.csv"),
     .entry "row" false 10 [PPNode.value (some "5")]]

/-- C2 (counterexample): a key-filter no-match is NOT fatal — `_import`
on a row key that matches nothing returns normally (the claim says the
run aborts and no output is produced). -/
theorem C2_counterexample :
    (import_ "f.xml" "cell" c2fs c2importNoMatch []).isOk = true := rfl

/-- C2 (amended): a row-key no-match and an out-of-bounds import index
are caught inside `_import`: each is recorded as a diagnostic under the
source file (surfaced at end of run) and the import continues, returning
a grid padded entirely with the `"N/A"` sentinel entry, so the run does
not abort and the presentation is still produced. -/
theorem C2_soft_import_errors :
    import_ "f.xml" "cell" c2fs c2importNoMatch [] =
      .ok ([[mkCell "import" 9 "N/A"], [mkCell "import" 9 "N/A"]],
        .entry "import" false 9
          [PPNode.value (some "d.csv"),
           .entry "row_key" false 10 [PPNode.value (some "Q3")],
           mkCell "import" 9 "a", mkCell "import" 9 "b",
           mkCell "import" 9 "c", mkCell "import" 9 "d",
           mkCell "import" 9 "N/A"],
        [("d.csv", ["row key \"Q3\": no match found"])]) ∧
    import_ "f.xml" "cell" c2fs c2importOOB [] =
      .ok ([[mkCell "import" 9 "N/A", mkCell "import" 9 "N/A"]],
        .entry "import" false 9
          [PPNode.value (some "d.csv"),
           .entry "row" false 10 [PPNode.value (some "5")],
           mkCell "import" 9 "a", mkCell "import" 9 "b",
           mkCell "import" 9 "c", mkCell "import" 9 "d",
           mkCell "import" 9 "N/A"],
        [("d.csv", ["row \"5\": index out of range"])]) :=
  ⟨rfl, rfl⟩

/-- Spreadsheet contents used by the C4 scenarios (three rows). -/
def c4fs : String → Option (List (List String)) :=
  fun p => if p = "e.csv" then some [["a"], ["b"], ["c"]] else none

/-- Import element carrying an explicit `num_row` of `"3"`. -/
def c4importNumRow : PPNode :=
  .entry "import" false 9
    [PPNode.value (some "e.csv"),
     .entry "num_row" false 10 [PPNode.value (some "3")]]

/-- Import element whose row key matches nothing in `e.csv`, so the
filtered result (none at all) is smaller than the importer-derived target
of 3 rows. -/
def c4importShort : PPNode :=
  .entry "import" false 9
    [PPNode.value (some "e.csv"),
     .entry "row_key" false 10 [PPNode.value (some "Q9")]]

/-- C4: requesting an explicit target size crashes instead of padding —
`num_row` stays the raw string `"3"` from the XML and `range(0, num_row)`
raises `TypeError`; and when the target does come from the importer and
exceeds the result, the grid IS padded with the `"N/A"` sentinel but NO
size-mismatch diagnostic is recorded (the diagnostics list holds exactly
the one no-match message; the mismatch recording is commented out). -/
theorem C4_target_size_handling :
    import_ "f.xml" "cell" c4fs c4importNumRow [] =
      .error (.typeError (apos ++ "str" ++ apos ++
        " object cannot be interpreted as an integer")) ∧
    import_ "f.xml" "cell" c4fs c4importShort [] =
      .ok ([[mkCell "import" 9 "N/A"], [mkCell "import" 9 "N/A"],
            [mkCell "import" 9 "N/A"]],
        .entry "import" false 9
          [PPNode.value (some "e.csv"),
           .entry "row_key" false 10 [PPNode.value (some "Q9")],
           mkCell "import" 9 "a", mkCell "import" 9 "b",
           mkCell "import" 9 "c", mkCell "import" 9 "N/A"],
        [("e.csv", ["row key \"Q9\": no match found"])]) :=
  ⟨rfl, rfl⟩

/-! ## Claim C3: key-filter no-match errors -/

/-- Three-row grid in which only row 2 contains the substring `"Q3"`. -/
def c3cells : List (List PPNode) :=
  [["a", "b"], ["Q3 rev", "c"], ["d", "e"]].map
    (fun r => r.map (mkCell "import" 9))

/-- C3: a row-key no-match raises the structured
`KeyError("no match found", "row key", pattern)` (shown for the pattern
`"Q3"` spelled `"Q9"` so nothing matches, after checking that `"Q3"`
itself narrows the candidate rows to `[2]`), but a column-key no-match
never produces the claimed `"column key"` error: the raise evaluates
`str(rk.key)` on the stale row-key loop variable, so it raises
`NameError` when there are no row keys and `AttributeError` otherwise. -/
theorem C3_no_match_errors :
    (get_data { initImporter with
        data := some c3cells, row_keys := [⟨"Q3", none⟩] }).1.rows = [2] ∧
    (get_data { initImporter with
        data := some c3cells, row_keys := [⟨"Q9", none⟩] }).2 =
      .error (.keyError "no match found" "row key" "Q9") ∧
    (get_data { initImporter with
        data := some c3cells, col_keys := [⟨"ZZ", none⟩] }).2 =
      .error (.nameError ("name " ++ apos ++ "rk" ++ apos ++
        " is not defined")) ∧
    (get_data { initImporter with
        data := some c3cells, row_keys := [⟨"Q3", none⟩],
        col_keys := [⟨"ZZ", none⟩] }).2 =
      .error (.attributeError (apos ++ "dict" ++ apos ++
        " object has no attribute " ++ apos ++ "key" ++ apos)) :=
  ⟨rfl, rfl, rfl, rfl⟩

/-! ## Claims C6 and C7: the range-spec mini-language -/

/-- C6: the spec's range examples hold — `"2,4-6"`, `"a:6"`, `"2:12:4"`,
`"2,d,7"` parse to the listed index sequences and token order (with
repeats) is preserved — but all-letter values are NOT read as bijective
base-26 beyond one letter: any multi-letter token (e.g. `"aa"`, which the
spec reads as 27) raises `TypeError`, because the conversion loop
overwrites its `tmp` string with an integer and then calls `len` on it. -/
theorem C6_range_spec_examples :
    get_array "2,4-6" = .ok [2, 4, 5, 6] ∧
    get_array "a:6" = .ok [1, 2, 3, 4, 5, 6] ∧
    get_array "2:12:4" = .ok [2, 6, 10] ∧
    get_array "2,d,7" = .ok [2, 4, 7] ∧
    get_array "2,4,2" = .ok [2, 4, 2] ∧
    get_array "aa" = .error (.typeError ("object of type " ++ apos ++
      "int" ++ apos ++ " has no len()")) :=
  ⟨rfl, rfl, rfl, rfl, rfl, rfl⟩

/-- C7: a non-positive index does fail with the message naming the token
and the whole spec string (its two source literals concatenate without a
space: `"...less than 1 inrow/column spec..."`), but a mixed
letters-and-digits token never produces such an error: the anchored
`re.match` guard is dead code, so `"2a"` fails inside `int()` with a
message that lacks the spec string, and `"a2"` crashes with `TypeError`
in the letters loop. -/
theorem C7_malformed_spec_errors :
    get_array "0" = .error (.valueError
      ("index \"0\" cannot be less than 1 inrow/column spec \"0\"")) ∧
    get_array "4,0" = .error (.valueError
      ("index \"0\" cannot be less than 1 inrow/column spec \"4,0\"")) ∧
    get_array "2a" = .error (.valueError (intLitMsg "2a")) ∧
    get_array "a2" = .error (.typeError ("object of type " ++ apos ++
      "int" ++ apos ++ " has no len()")) :=
  ⟨rfl, rfl, rfl, rfl⟩

/-! ## Claim C9: table assembler idempotence -/

/-- Spreadsheet contents for the C9 table. -/
def c9fs : String → Option (List (List String)) :=
  fun p => if p = "t.csv" then some [["x"]] else none

/-- A table placeholder holding one literal row with one import. -/
def c9table : PPNode :=
  .entry "mytable" false 7
    [.entry "row" false 8
      [.entry "import" false 9 [PPNode.value (some "t.csv")]]]

/-- First assembler run. -/
def c9run1 := ph_table "f.xml" "DATE" c9fs c9table []

/-- The placeholder entry as mutated by the first run. -/
def c9entry1 : PPNode :=
  match c9run1 with
  | .ok (_, e, _) => e
  | .error _ => c9table

/-- Second assembler run, on the same (now mutated) input entry. -/
def c9run2 := ph_table "f.xml" "DATE" c9fs c9entry1 []

/-- C9 (counterexample): running the assembler twice on the same input
entries does NOT produce identical results — the first run mutates state
reachable from the input (cell and sentinel entries appended to
the import entry) that the second run observes. -/
theorem C9_counterexample : c9run2 ≠ c9run1 := by
  intro h
  have h2 : c9run2.isOk = false := rfl
  have h1 : c9run1.isOk = true := rfl
  rw [h, h1] at h2
  exact Bool.noConfusion h2

/-- C9 (amended): the first run succeeds (a 1×1 grid rendering `"x"`) and
appends the imported cell entry and the `"N/A"` sentinel entry to
the import entry data; the second run, fed that mutated entry, rejects
those appended children as invalid import attributes and fails. -/
theorem C9_second_run_fails :
    c9run1 = .ok (⟨[[some (mkCell "import" 9 "x")]], 1, 1, [[some "x"]]⟩,
      .entry "mytable" false 7
        [.entry "row" false 8
          [.entry "import" false 9
            [PPNode.value (some "t.csv"), mkCell "import" 9 "x",
             mkCell "import" 9 "N/A"]]], []) ∧
    c9run2 = .error (.valueError ("invalid import attribute \"import\"\n" ++
      errInfo "f.xml" "import" 9)) :=
  ⟨rfl, rfl⟩

/-! ## Shared lemmas about the walk's building blocks -/

/-- Popping a stack with at least one scope drops the innermost scope. -/
theorem pop_concat (ds : List Scope) (d : Scope) :
    VariableStack.pop ⟨ds ++ [d]⟩ = .ok ⟨ds⟩ := by
  unfold VariableStack.pop
  rcases ds with _ | ⟨a, ds⟩
  · simp [List.isEmpty]
  · simp only [List.isEmpty, ← List.cons_append, List.dropLast_concat]
    rfl

/-- A scan over scopes none of which binds the variable finds nothing. -/
theorem findDictFirst_eq_none (var : String) (l : List Scope)
    (h : ∀ sc ∈ l, sc.containsVar var = false) :
    findDictFirst var l = none := by
  induction l with
  | nil => rfl
  | cons d ds ih =>
      unfold findDictFirst
      rw [h d (by simp)]
      simp only [Bool.false_eq_true, if_false]
      exact ih fun sc hsc => h sc (by simp [hsc])

/-- `get` on a stack that nowhere binds the variable raises the
undefined-variable `ValueError`. -/
theorem get_not_found (ds : List Scope) (var : String)
    (h : ∀ sc ∈ ds, sc.containsVar var = false) :
    VariableStack.get ⟨ds⟩ var =
      .error (.valueError (varNotFoundMsg var)) := by
  unfold VariableStack.get
  rw [findDictFirst_eq_none var ds.reverse
    (fun sc hsc => h sc (List.mem_reverse.mp hsc))]

/-- `get_values(tag=...)` over data with no matching entry child. -/
theorem getValuesTagJoin_no_match (tag : String) (l : List PPNode)
    (h : ∀ x ∈ l, isEntryTag tag x = false) :
    getValuesTagJoin tag l = .ok [] := by
  induction l with
  | nil => rfl
  | cons a rest ih =>
      cases a with
      | value v =>
          simp only [getValuesTagJoin]
          exact ih fun x hx => h x (List.mem_cons_of_mem _ hx)
      | entry t ia l2 d =>
          have ht : (t == tag) = false := h _ (List.mem_cons_self _ _)
          have ht2 : ¬ (t = tag) := by simpa [isEntryTag] using ht
          simp only [getValuesTagJoin, ht2, if_false]
          exact ih fun x hx => h x (List.mem_cons_of_mem _ hx)

/-- `get_values(tag=...)` over data with exactly one matching entry
child. -/
theorem getValuesTagJoin_single (tag : String) (pre suf : List PPNode)
    (hpre : ∀ x ∈ pre, isEntryTag tag x = false)
    (hsuf : ∀ x ∈ suf, isEntryTag tag x = false)
    (ia : Bool) (l : Nat) (d : List PPNode) (s : String)
    (hd : joinValues d = .ok s) :
    getValuesTagJoin tag (pre ++ .entry tag ia l d :: suf) = .ok [s] := by
  induction pre with
  | nil =>
      simp [List.nil_append, getValuesTagJoin, hd,
        getValuesTagJoin_no_match tag suf hsuf, Except.bind, bind]
  | cons a rest ih =>
      have hrest := fun x hx => hpre x (List.mem_cons_of_mem _ hx)
      cases a with
      | value v =>
          simp only [List.cons_append, getValuesTagJoin]
          exact ih hrest
      | entry t ia2 l2 d2 =>
          have ht : (t == tag) = false := hpre _ (List.mem_cons_self _ _)
          have ht2 : ¬ (t = tag) := by simpa [isEntryTag] using ht
          simp only [List.cons_append, getValuesTagJoin, ht2, if_false]
          exact ih hrest

/-- `remove` steps over a non-matching element. -/
theorem removeTag_cons_of_not (tag : String) (a : PPNode)
    (l : List PPNode) (ha : isEntryTag tag a = false) :
    removeTag tag (a :: l) = a :: removeTag tag l := by
  cases l <;> simp [removeTag, ha]

/-- `remove` leaves a list with no matching entries untouched. -/
theorem removeTag_no_match (tag : String) (l : List PPNode)
    (h : ∀ x ∈ l, isEntryTag tag x = false) :
    removeTag tag l = l := by
  induction l with
  | nil => rfl
  | cons a rest ih =>
      rw [removeTag_cons_of_not tag a rest (h _ (List.mem_cons_self _ _)),
        ih fun x hx => h x (List.mem_cons_of_mem _ hx)]

/-- `remove` on data holding exactly one matching entry deletes it (the
element after it is skipped unexamined but kept). -/
theorem removeTag_single (tag : String) (pre suf : List PPNode)
    (hpre : ∀ x ∈ pre, isEntryTag tag x = false)
    (hsuf : ∀ x ∈ suf, isEntryTag tag x = false)
    (ia : Bool) (l : Nat) (d : List PPNode) :
    removeTag tag (pre ++ .entry tag ia l d :: suf) = pre ++ suf := by
  induction pre with
  | nil =>
      cases suf with
      | nil => simp [removeTag, isEntryTag]
      | cons y ys =>
          simp only [List.nil_append]
          have h1 : removeTag tag (PPNode.entry tag ia l d :: y :: ys) =
              y :: removeTag tag ys := by
            simp [removeTag, isEntryTag]
          rw [h1, removeTag_no_match tag ys
            fun x hx => hsuf x (List.mem_cons_of_mem _ hx)]
  | cons a rest ih =>
      simp only [List.cons_append]
      rw [removeTag_cons_of_not tag a _ (hpre _ (List.mem_cons_self _ _)),
        ih fun x hx => hpre x (List.mem_cons_of_mem _ hx)]

/-! ## Claim C5: `append` / `prepend` directives -/

/-- Input tree for the C5 counterexample: `x` is set to `"vx"`, then the
element `<q append="x">tt</q>` resolves the append directive before its
own text `"tt"` is added. -/
def c5tree : XElem :=
  xelem "p" [] none none 1
    [xelem "set" [("var", "x")] (some "vx") none 2 [],
     xelem "q" [("append", "x")] (some "tt") none 3 []]

/-- C5 (counterexample): the appended `Value` is NOT the last child of
the directive's parent in the final resolved tree — content processed
after the directive (here the parent's own text `"tt"`) ends up after it,
so `q`'s last child is the `"tt"` value, not the appended `"vx"`
value. -/
theorem C5_counterexample :
    parseTree "f.xml" c5tree =
      .ok ([.entry "p" false 1 [.entry "q" false 3
        [PPNode.value (some "vx"), PPNode.value (some "tt")]]], ⟨[]⟩) ∧
    ([PPNode.value (some "vx"), PPNode.value (some "tt")]).getLast? ≠
      some (PPNode.value (some "vx")) := by
  refine ⟨rfl, ?_⟩
  intro h
  simp [List.getLast?] at h

/-- C5 (amended): when an `append`/`prepend` directive completes, the
resolved `Value` is appended at the end (`append`) or inserted at the
start (`prepend`) of the parent's data as built so far, and the directive
entry itself is deleted (content processed later is placed after the
inserted value); if the variable is undefined the directive fails with a
`ValueError` naming the directive, the variable, and the source
position. -/
theorem C5_append_prepend_resolution :
    (∀ (src ptag : String) (line : Nat) (ia : Bool)
        (entryData acc : List PPNode) (ds : List Scope) (d : Scope)
        (var val : String),
        joinValues entryData = .ok var →
        VariableStack.get ⟨ds⟩ var = .ok val →
        postprocess_element src ptag line ia "append" entryData acc
            ⟨ds ++ [d]⟩ = .ok (acc ++ [mkValue val], ⟨ds⟩)) ∧
    (∀ (src ptag : String) (line : Nat) (ia : Bool)
        (entryData acc : List PPNode) (ds : List Scope) (d : Scope)
        (var val : String),
        joinValues entryData = .ok var →
        VariableStack.get ⟨ds⟩ var = .ok val →
        postprocess_element src ptag line ia "prepend" entryData acc
            ⟨ds ++ [d]⟩ = .ok (mkValue val :: acc, ⟨ds⟩)) ∧
    (∀ (src ptag : String) (line : Nat) (ia : Bool)
        (entryData acc : List PPNode) (ds : List Scope) (d : Scope)
        (var : String),
        joinValues entryData = .ok var →
        (∀ sc ∈ ds, sc.containsVar var = false) →
        postprocess_element src ptag line ia "append" entryData acc
            ⟨ds ++ [d]⟩ = .error (.valueError
              (appendUndefMsg var "append" (errInfo src ptag line)))) ∧
    (∀ (src ptag : String) (line : Nat) (ia : Bool)
        (entryData acc : List PPNode) (ds : List Scope) (d : Scope)
        (var : String),
        joinValues entryData = .ok var →
        (∀ sc ∈ ds, sc.containsVar var = false) →
        postprocess_element src ptag line ia "prepend" entryData acc
            ⟨ds ++ [d]⟩ = .error (.valueError
              (appendUndefMsg var "prepend" (errInfo src ptag line)))) := by
  refine ⟨?_, ?_, ?_, ?_⟩
  · intro src ptag line ia entryData acc ds d var val hjoin hget
    simp [postprocess_element, pop_concat, hjoin, hget, Except.bind, bind,
      pure, Except.pure]
  · intro src ptag line ia entryData acc ds d var val hjoin hget
    simp [postprocess_element, pop_concat, hjoin, hget, Except.bind, bind,
      pure, Except.pure]
  · intro src ptag line ia entryData acc ds d var hjoin hnone
    simp [postprocess_element, pop_concat, hjoin,
      get_not_found ds var hnone, Except.bind, bind]
  · intro src ptag line ia entryData acc ds d var hjoin hnone
    simp [postprocess_element, pop_concat, hjoin,
      get_not_found ds var hnone, Except.bind, bind]

/-- C5 (witness): the amended theorem applied at concrete inputs — a
defined variable `x = "vx"` appended and prepended around existing
content, and an undefined variable `y` failing with the full message. -/
theorem C5_append_prepend_resolution_witness :
    postprocess_element "f.xml" "q" 3 true "append" [PPNode.value (some "x")]
        [mkValue "A"] ⟨[[("x", "vx")], []]⟩ =
      .ok ([mkValue "A", mkValue "vx"], ⟨[[("x", "vx")]]⟩) ∧
    postprocess_element "f.xml" "q" 3 true "prepend"
        [PPNode.value (some "x")] [mkValue "A"] ⟨[[("x", "vx")], []]⟩ =
      .ok ([mkValue "vx", mkValue "A"], ⟨[[("x", "vx")]]⟩) ∧
    postprocess_element "f.xml" "q" 3 true "append" [PPNode.value (some "y")]
        [] ⟨[[("x", "vx")], []]⟩ =
      .error (.valueError
        (appendUndefMsg "y" "append" (errInfo "f.xml" "q" 3))) ∧
    postprocess_element "f.xml" "q" 3 true "prepend"
        [PPNode.value (some "y")] [] ⟨[[("x", "vx")], []]⟩ =
      .error (.valueError
        (appendUndefMsg "y" "prepend" (errInfo "f.xml" "q" 3))) :=
  ⟨C5_append_prepend_resolution.1 "f.xml" "q" 3 true _ _ [[("x", "vx")]] []
      "x" "vx" rfl rfl,
   C5_append_prepend_resolution.2.1 "f.xml" "q" 3 true _ _ [[("x", "vx")]]
      [] "x" "vx" rfl rfl,
   C5_append_prepend_resolution.2.2.1 "f.xml" "q" 3 true _ _ [[("x", "vx")]]
      [] "y" rfl (by decide),
   C5_append_prepend_resolution.2.2.2 "f.xml" "q" 3 true _ _ [[("x", "vx")]]
      [] "y" rfl (by decide)⟩

/-! ## Claim C8: `set` scoping versus `mod` persistence -/

/-- C8: for any variable name and values (whitespace-free and non-empty,
so the XML text survives `add_text` unchanged):
(1) a `set` inside element `e` binds the variable in `e`'s scope and a
`get` evaluated later inside `e` sees it;
(2) after `e`'s scope is popped, a `get` from a later sibling of `e`
fails with the undefined-variable error;
(3) a `mod` nested inside `b` of a variable `set` in the ancestor `a`
mutates `a`'s retained scope in place, so after `b`'s scope is popped the
new value is seen both by a subsequent sibling `get` and by a `get`
inside the later sibling element `c` (a cousin of the `mod`). -/
theorem C8_set_mod_scoping (x v1 v2 : String)
    (hxs : pyStrip x = x) (hx : x ≠ "")
    (hv1s : pyStrip v1 = v1) (hv1 : v1 ≠ "")
    (hv2s : pyStrip v2 = v2) (hv2 : v2 ≠ "") :
    (parseTree "f.xml" (xelem "p" [] none none 1
        [xelem "e" [] none none 2
          [xelem "set" [("var", x)] (some v1) none 3 [],
           xelem "get" [("var", x)] none none 4 []]]) =
      .ok ([.entry "p" false 1 [.entry "e" false 2 [mkValue v1]]],
        ⟨[]⟩)) ∧
    (parseTree "f.xml" (xelem "p" [] none none 1
        [xelem "e" [] none none 2
          [xelem "set" [("var", x)] (some v1) none 3 []],
         xelem "get" [("var", x)] none none 5 []]) =
      .error (.valueError (varNotFoundMsg x))) ∧
    (parseTree "f.xml" (xelem "a" [] none none 1
        [xelem "set" [("var", x)] (some v1) none 2 [],
         xelem "b" [] none none 3
           [xelem "mod" [("var", x)] (some v2) none 4 []],
         xelem "get" [("var", x)] none none 5 [],
         xelem "c" [] none none 6
           [xelem "get" [("var", x)] none none 7 []]]) =
      .ok ([.entry "a" false 1
        [.entry "b" false 3 [], mkValue v2,
         .entry "c" false 6 [mkValue v2]]], ⟨[]⟩)) := by
  refine ⟨?_, ?_, ?_⟩
  · simp [parseTree, processElement, processChildren, processAttribs,
      processAttrib, postprocess_element, addText, mkValue, xelem,
      XChildren.ofList, hxs, hv1s, hx, hv1, joinValues, getValuesTagJoin,
      valStr, VariableStack.push, VariableStack.pop, VariableStack.get,
      VariableStack.set, findDictFirst, Scope.containsVar, Scope.getVar,
      Scope.setVar, varNotFoundMsg, Except.bind, bind, pure, Except.pure,
      String.append_empty, XElem.tailText]
  · simp [parseTree, processElement, processChildren, processAttribs,
      processAttrib, postprocess_element, addText, mkValue, xelem,
      XChildren.ofList, hxs, hv1s, hx, hv1, joinValues, getValuesTagJoin,
      valStr, VariableStack.push, VariableStack.pop, VariableStack.get,
      VariableStack.set, findDictFirst, Scope.containsVar, Scope.getVar,
      Scope.setVar, Except.bind, bind, pure, Except.pure,
      String.append_empty, XElem.tailText]
  · simp [parseTree, processElement, processChildren, processAttribs,
      processAttrib, postprocess_element, addText, mkValue, xelem,
      XChildren.ofList, hxs, hv1s, hx, hv1, hv2s, hv2, joinValues,
      getValuesTagJoin, valStr, VariableStack.push, VariableStack.pop,
      VariableStack.get, VariableStack.mod, VariableStack.set,
      findDictFirst, modFirst, Scope.containsVar, Scope.getVar,
      Scope.setVar, Except.bind, bind, pure, Except.pure,
      String.append_empty, XElem.tailText]

/-- C8 (witness): the scoping theorem applied at `x`/`v1`/`v2`. -/
theorem C8_set_mod_scoping_witness :
    (parseTree "f.xml" (xelem "p" [] none none 1
        [xelem "e" [] none none 2
          [xelem "set" [("var", "x")] (some "v1") none 3 [],
           xelem "get" [("var", "x")] none none 4 []]]) =
      .ok ([.entry "p" false 1 [.entry "e" false 2 [mkValue "v1"]]],
        ⟨[]⟩)) ∧
    (parseTree "f.xml" (xelem "p" [] none none 1
        [xelem "e" [] none none 2
          [xelem "set" [("var", "x")] (some "v1") none 3 []],
         xelem "get" [("var", "x")] none none 5 []]) =
      .error (.valueError (varNotFoundMsg "x"))) ∧
    (parseTree "f.xml" (xelem "a" [] none none 1
        [xelem "set" [("var", "x")] (some "v1") none 2 [],
         xelem "b" [] none none 3
           [xelem "mod" [("var", "x")] (some "v2") none 4 []],
         xelem "get" [("var", "x")] none none 5 [],
         xelem "c" [] none none 6
           [xelem "get" [("var", "x")] none none 7 []]]) =
      .ok ([.entry "a" false 1
        [.entry "b" false 3 [], mkValue "v2",
         .entry "c" false 6 [mkValue "v2"]]], ⟨[]⟩)) :=
  C8_set_mod_scoping "x" "v1" "v2" rfl (by decide) rfl (by decide) rfl
    (by decide)

/-! ## Claim C10: placeholder name resolution -/

/-- C10: a `placeholder` entry under a `slide` with exactly one `name`
attribute has its tag replaced by the attribute's joined value and the
`name` child removed from its data; with no `name` attribute the
resolution fails with the `IndexError` of indexing an empty list; with
more than one it fails with the one-name-only `ValueError`. -/
theorem C10_placeholder_name :
    (∀ (src : String) (line l2 : Nat) (ia : Bool)
        (acc pre suf : List PPNode) (nameVal : String)
        (ds : List Scope) (d : Scope),
        (∀ x ∈ pre, isEntryTag "name" x = false) →
        (∀ x ∈ suf, isEntryTag "name" x = false) →
        postprocess_element src "slide" line ia "placeholder"
            (pre ++ .entry "name" true l2 [.value (some nameVal)] :: suf)
            acc ⟨ds ++ [d]⟩ =
          .ok (acc ++ [.entry nameVal ia line (pre ++ suf)], ⟨ds⟩)) ∧
    (∀ (src : String) (line : Nat) (ia : Bool) (acc dat : List PPNode)
        (ds : List Scope) (d : Scope),
        (∀ x ∈ dat, isEntryTag "name" x = false) →
        postprocess_element src "slide" line ia "placeholder" dat acc
            ⟨ds ++ [d]⟩ =
          .error (.indexError "list index out of range")) ∧
    (∀ (src : String) (line l1 l2 : Nat) (ia : Bool) (acc : List PPNode)
        (a b : String) (ds : List Scope) (d : Scope),
        postprocess_element src "slide" line ia "placeholder"
            [.entry "name" true l1 [.value (some a)],
             .entry "name" true l2 [.value (some b)]] acc ⟨ds ++ [d]⟩ =
          .error (.valueError (oneNameMsg (errInfo src "slide" line)))) := by
  refine ⟨?_, ?_, ?_⟩
  · intro src line l2 ia acc pre suf nameVal ds d hpre hsuf
    have hj : joinValues [PPNode.value (some nameVal)] = .ok nameVal := by
      simp [joinValues, valStr, bind, Except.bind, pure, Except.pure,
        String.append_empty]
    simp [postprocess_element, pop_concat,
      getValuesTagJoin_single "name" pre suf hpre hsuf true l2 _ nameVal hj,
      removeTag_single "name" pre suf hpre hsuf true l2, Except.bind, bind,
      pure, Except.pure, throw, throwThe, MonadExceptOf.throw]
  · intro src line ia acc dat ds d hdat
    simp [postprocess_element, pop_concat,
      getValuesTagJoin_no_match "name" dat hdat, Except.bind, bind,
      pure, Except.pure, throw, throwThe, MonadExceptOf.throw]
  · intro src line l1 l2 ia acc a b ds d
    simp [postprocess_element, pop_concat, getValuesTagJoin, joinValues,
      valStr, Except.bind, bind, pure, Except.pure, throw, throwThe,
      MonadExceptOf.throw]

/-- C10 (witness): the placeholder theorem applied at concrete data — one
`name` attribute (tag becomes `"title"`, the name child disappears), no
`name` attribute, and two `name` attributes. -/
theorem C10_placeholder_name_witness :
    postprocess_element "f.xml" "slide" 7 false "placeholder"
        [.entry "name" true 7 [.value (some "title")],
         PPNode.value (some "hello")] [] ⟨[[]]⟩ =
      .ok ([.entry "title" false 7 [PPNode.value (some "hello")]],
        ⟨[]⟩) ∧
    postprocess_element "f.xml" "slide" 7 false "placeholder"
        [PPNode.value (some "hello")] [] ⟨[[]]⟩ =
      .error (.indexError "list index out of range") ∧
    postprocess_element "f.xml" "slide" 7 false "placeholder"
        [.entry "name" true 7 [.value (some "a")],
         .entry "name" true 8 [.value (some "b")]] [] ⟨[[]]⟩ =
      .error (.valueError (oneNameMsg (errInfo "f.xml" "slide" 7))) :=
  ⟨C10_placeholder_name.1 "f.xml" 7 7 false [] []
      [PPNode.value (some "hello")] "title" [] [] (by decide) (by decide),
   C10_placeholder_name.2.1 "f.xml" 7 false []
      [PPNode.value (some "hello")] [] [] (by decide),
   C10_placeholder_name.2.2 "f.xml" 7 7 8 false [] "a" "b" [] []⟩
